import Mathlib

/-!
# GafferSceneModule: the Python binding adapters of `_GafferScene`

A shallow embedding of `src/GafferSceneModule/GafferSceneModule.cpp`.

The file binds the GafferScene library to Python.  The library itself
(`Displays::addDisplay`, the `ParameterListPlug` constructor,
`GraphComponent::addChild`, `ParameterListPlug::addParameter`), the
boost::python conversion `extract<Gaffer::PlugPtr>` and the constants used as
default arguments are declared in headers outside this file, so they are taken
as parameters (`Native`).  The `children` argument is a Python object, an
instance of `tuple` or of a subclass of it, so what its `__len__` and its
indexing do is given with the object (`PyTuple`).  The adapters are embedded
by explicit state passing: the state is the object graph owned by the library
(`world`) together with a ghost `log` of every call the adapter performs, into
the library or into Python, and whether it threw.  A C++ exception is an
`Except.error`; the state reached when it is thrown is kept, since side
effects made before a throw persist.
-/

namespace GafferSceneModule

/-- The types declared by the wrapped library and by the Python layer. -/
structure Types where
  /-- The object graph owned by the native library. -/
  World : Type
  /-- `ParameterListPlugPtr`. -/
  ParameterListPlug : Type
  /-- `Gaffer::PlugPtr`. -/
  Plug : Type
  /-- `Gaffer::CompoundPlugPtr`. -/
  CompoundPlug : Type
  /-- `Displays &`. -/
  Displays : Type
  /-- `IECore::DataPtr`. -/
  Data : Type
  /-- `Gaffer::Plug::Direction`. -/
  Direction : Type
  /-- A Python object, as held by an element of a `boost::python::tuple`. -/
  PyObject : Type
  /-- Whatever a call may throw. -/
  Exn : Type

/-- The Python object returned by `__len__`, given by what
`extract<size_t>` does on it: it yields a size or throws, and may run Python
code on the way. -/
structure PyLen (T : Types) where
  extractSize : T.World → Except T.Exn Nat × T.World

/-- The Python object passed as `children`, an instance of `tuple` or of a
subclass of it, given by what the two operations the module performs on it
do: the call `children.attr( "__len__" )()` and the indexing `children[i]`.
Both run Python code, which may throw and may act on the world. -/
structure PyTuple (T : Types) where
  callLen : T.World → Except T.Exn (PyLen T) × T.World
  getItem : Nat → T.World → Except T.Exn T.PyObject × T.World

/-- A call made by an adapter: one of the four wrapped library calls, or one
of the calls into the Python layer: `children.attr( "__len__" )()`,
`extract<size_t>` of what it returned, `children[i]`, and the conversion
`extract<Gaffer::PlugPtr>` of the object `o` found at index `i`. -/
inductive Event (T : Types) where
  | addDisplay (displays : T.Displays) (name type data : String)
  | construct (name : String) (direction : T.Direction) (flags : Nat)
  | len
  | extractSize
  | getItem (i : Nat)
  | extract (i : Nat) (o : T.PyObject)
  | addChild (parent : T.ParameterListPlug) (child : T.Plug)
  | addParameter (p : T.ParameterListPlug) (name : String) (value : T.Data)

/-- The method an event is a call of. -/
inductive Kind where
  | addDisplay
  | construct
  | len
  | extractSize
  | getItem
  | extract
  | addChild
  | addParameter
deriving DecidableEq

/-- The method called by an event. -/
def Event.kind {T : Types} : Event T → Kind
  | .addDisplay _ _ _ _ => .addDisplay
  | .construct _ _ _ => .construct
  | .len => .len
  | .extractSize => .extractSize
  | .getItem _ => .getItem
  | .extract _ _ => .extract
  | .addChild _ _ => .addChild
  | .addParameter _ _ _ => .addParameter

/-- Whether the event is a call of the wrapped library (`addDisplay`, the
`ParameterListPlug` constructor, `addChild`, `addParameter`) rather than a
call into the Python layer. -/
def Event.isNative {T : Types} (ev : Event T) : Bool :=
  match ev with
  | .addDisplay _ _ _ _ => true
  | .construct _ _ _ => true
  | .addChild _ _ => true
  | .addParameter _ _ _ => true
  | .len => false
  | .extractSize => false
  | .getItem _ => false
  | .extract _ _ => false

/-- A log entry: the call, and what it threw if it threw. -/
structure Entry (T : Types) where
  event : Event T
  failure : Option T.Exn

/-- The state threaded through an adapter. -/
structure State (T : Types) where
  world : T.World
  log : List (Entry T)

/-- The wrapped library, the conversion from Python and the constants used by
the module, all declared outside `GafferSceneModule.cpp`. -/
structure Native (T : Types) where
  /-- `Displays::addDisplay( name, type, data )`. -/
  addDisplay : T.Displays → String → String → String → T.World →
    Except T.Exn T.CompoundPlug × T.World
  /-- `new ParameterListPlug( name, direction, flags )`. -/
  newParameterListPlug : String → T.Direction → Nat → T.World →
    Except T.Exn T.ParameterListPlug × T.World
  /-- `result->addChild( c )`. -/
  addChild : T.ParameterListPlug → T.Plug → T.World → Except T.Exn Unit × T.World
  /-- `ParameterListPlug::addParameter( name, value )`. -/
  addParameter : T.ParameterListPlug → String → T.Data → T.World →
    Except T.Exn T.CompoundPlug × T.World
  /-- `extract<Gaffer::PlugPtr>( o )`: throws when `o` does not convert. -/
  extractPlug : T.PyObject → Except T.Exn T.Plug
  /-- `ScenePlug::staticTypeName()`. -/
  scenePlugStaticTypeName : String
  /-- `Gaffer::Plug::In`. -/
  plugIn : T.Direction
  /-- `Gaffer::Plug::Default`. -/
  plugDefault : Nat
  /-- The `IndexError` that Python raises for an index out of range. -/
  indexError : T.Exn

/-- A plain tuple, an instance of `tuple` itself, with the given elements:
`__len__` returns their number, which converts to a `size_t`, and indexing
returns the element, or raises `IndexError` past the end; neither acts on the
world. -/
def PyTuple.ofList {T : Types} (N : Native T) (items : List T.PyObject) : PyTuple T where
  callLen := fun w => (.ok ⟨fun w2 => (.ok items.length, w2)⟩, w)
  getItem := fun i w =>
    match items[i]? with
    | some o => (.ok o, w)
    | none => (.error N.indexError, w)

/-- What a call threw, if it threw. -/
def thrown {ε α : Type} : Except ε α → Option ε
  | .error e => some e
  | .ok _ => none

/-- Performs the call `f` on the current world and logs it as `ev`. -/
def invoke {T : Types} {α : Type} (ev : Event T)
    (f : T.World → Except T.Exn α × T.World) (st : State T) :
    Except T.Exn α × State T :=
  ((f st.world).1, ⟨(f st.world).2, st.log ++ [⟨ev, thrown (f st.world).1⟩]⟩)

/-- `addDisplayWrapper` (lines 72-75). -/
def addDisplayWrapper {T : Types} (N : Native T) (displays : T.Displays)
    (name type data : String) (st : State T) : Except T.Exn T.CompoundPlug × State T :=
  invoke (.addDisplay displays name type data) (N.addDisplay displays name type data) st

/-- The loop of `parameterListPlugConstructor` (lines 81-85), entered with
loop variable `i` and bound `s`: `children[i]` is read, converted with
`extract<Gaffer::PlugPtr>`, and added with `result->addChild`. -/
def parameterListPlugConstructor.loop {T : Types} (N : Native T)
    (result : T.ParameterListPlug) (children : PyTuple T) (s i : Nat)
    (st : State T) : Except T.Exn Unit × State T :=
  if i < s then
    match invoke (.getItem i) (children.getItem i) st with
    | (.error e, st1) => (.error e, st1)
    | (.ok o, st1) =>
      match invoke (.extract i o) (fun w => (N.extractPlug o, w)) st1 with
      | (.error e, st2) => (.error e, st2)
      | (.ok c, st2) =>
        match invoke (.addChild result c) (N.addChild result c) st2 with
        | (.error e, st3) => (.error e, st3)
        | (.ok _, st3) => parameterListPlugConstructor.loop N result children s (i + 1) st3
  else
    (.ok (), st)
termination_by s - i

/-- `parameterListPlugConstructor` (lines 77-87): the constructor call (line
79), the bound `s` read with `children.attr( "__len__" )()` and
`extract<size_t>` (line 80), the loop (lines 81-85) and the return (line 86).
`flags` is an `unsigned` that is only passed on and `s`, `i` are `size_t` with
`i` never above `s`, so no arithmetic can wrap. -/
def parameterListPlugConstructor {T : Types} (N : Native T) (name : String)
    (direction : T.Direction) (flags : Nat) (children : PyTuple T)
    (st : State T) : Except T.Exn T.ParameterListPlug × State T :=
  match invoke (.construct name direction flags)
      (N.newParameterListPlug name direction flags) st with
  | (.error e, st1) => (.error e, st1)
  | (.ok result, st1) =>
    match invoke .len children.callLen st1 with
    | (.error e, st2) => (.error e, st2)
    | (.ok o, st2) =>
      match invoke .extractSize o.extractSize st2 with
      | (.error e, st3) => (.error e, st3)
      | (.ok s, st3) =>
        match parameterListPlugConstructor.loop N result children s 0 st3 with
        | (.error e, st4) => (.error e, st4)
        | (.ok _, st4) => (.ok result, st4)

/-- `addParameterWrapper` (lines 89-92). -/
def addParameterWrapper {T : Types} (N : Native T) (p : T.ParameterListPlug)
    (name : String) (value : T.Data) (st : State T) :
    Except T.Exn T.CompoundPlug × State T :=
  invoke (.addParameter p name value) (N.addParameter p name value) st

/-- The `__init__` of `ParameterListPlug` registered at lines 99-108:
`parameterListPlugConstructor` behind four keyword arguments, each with a
default, `none` standing for an argument the caller did not supply.  The
default of `children` is `tuple()`, the plain empty tuple. -/
def ParameterListPlug.init {T : Types} (N : Native T) (name : Option String)
    (direction : Option T.Direction) (flags : Option Nat)
    (children : Option (PyTuple T)) (st : State T) :
    Except T.Exn T.ParameterListPlug × State T :=
  parameterListPlugConstructor N (name.getD N.scenePlugStaticTypeName)
    (direction.getD N.plugIn) (flags.getD N.plugDefault)
    (children.getD (PyTuple.ofList N [])) st

/-! ## The `Filter::Result` enum binding (lines 159-167) -/

/-- The wrapped library calls among the logged calls, in order. -/
def nativeCalls {T : Types} (log : List (Entry T)) : List (Event T) :=
  (log.map Entry.event).filter Event.isNative

/-- The `addChild` calls among the logged calls, in order, as (parent, child). -/
def addChildCalls {T : Types} (log : List (Entry T)) :
    List (T.ParameterListPlug × T.Plug) :=
  log.filterMap fun en =>
    match en.event with
    | .addChild parent child => some (parent, child)
    | _ => none

/-- The indices at which `children` was read, in order. -/
def indexed {T : Types} (log : List (Entry T)) : List Nat :=
  log.filterMap fun en =>
    match en.event with
    | .getItem i => some i
    | _ => none

/-- The indices of the elements of `children` that were examined, that is
submitted to the conversion to a plug, in order. -/
def examined {T : Types} (log : List (Entry T)) : List Nat :=
  log.filterMap fun en =>
    match en.event with
    | .extract i _ => some i
    | _ => none

/-- The behaviour the specification gives for the appended children: each plug
is added to `parent` with the native `addChild`, in order, and a call that
throws ends the sequence. -/
def appendChildren {T : Types} (N : Native T) (parent : T.ParameterListPlug) :
    List T.Plug → T.World → Except T.Exn Unit × T.World
  | [], w => (.ok (), w)
  | c :: cs, w =>
    match N.addChild parent c w with
    | (.error e, w1) => (.error e, w1)
    | (.ok _, w1) => appendChildren N parent cs w1

/-- The behaviour the specification gives for `parameterListPlugConstructor`:
builds the native object, then appends each plug as a child, in order, and
returns the object; a call that throws ends the sequence. -/
def constructThenAppend {T : Types} (N : Native T) (name : String)
    (direction : T.Direction) (flags : Nat) (plugs : List T.Plug) (w : T.World) :
    Except T.Exn T.ParameterListPlug × T.World :=
  match N.newParameterListPlug name direction flags w with
  | (.error e, w1) => (.error e, w1)
  | (.ok r, w1) =>
    match appendChildren N r plugs w1 with
    | (.error e, w2) => (.error e, w2)
    | (.ok _, w2) => (.ok r, w2)

/-- The loop of `parameterListPlugConstructor` by the number of iterations
left, `i` being the loop variable. -/
def loopCount {T : Types} (N : Native T) (result : T.ParameterListPlug)
    (children : PyTuple T) : Nat → Nat → State T → Except T.Exn Unit × State T
  | 0, _, st => (.ok (), st)
  | n + 1, i, st =>
    match invoke (.getItem i) (children.getItem i) st with
    | (.error e, st1) => (.error e, st1)
    | (.ok o, st1) =>
      match invoke (.extract i o) (fun w => (N.extractPlug o, w)) st1 with
      | (.error e, st2) => (.error e, st2)
      | (.ok c, st2) =>
        match invoke (.addChild result c) (N.addChild result c) st2 with
        | (.error e, st3) => (.error e, st3)
        | (.ok _, st3) => loopCount N result children n (i + 1) st3

/-- The loop of `parameterListPlugConstructor` on a plain tuple, as a
traversal of the elements not yet visited, `i` being the index of the first
of them. -/
def loopFrom {T : Types} (N : Native T) (result : T.ParameterListPlug) :
    List T.PyObject → Nat → State T → Except T.Exn Unit × State T
  | [], _, st => (.ok (), st)
  | c :: cs, i, st =>
    match invoke (.getItem i) (fun w => (.ok c, w)) st with
    | (.error e, st1) => (.error e, st1)
    | (.ok o, st1) =>
      match invoke (.extract i o) (fun w => (N.extractPlug o, w)) st1 with
      | (.error e, st2) => (.error e, st2)
      | (.ok p, st2) =>
        match invoke (.addChild result p) (N.addChild result p) st2 with
        | (.error e, st3) => (.error e, st3)
        | (.ok _, st3) => loopFrom N result cs (i + 1) st3

/-! ## A sample library

A small concrete library, used to run the adapters on concrete inputs. -/

namespace Demo

/-- Directions of a plug. -/
inductive Direction where
  | Invalid
  | In
  | Out
deriving DecidableEq

/-- Python objects: wrapped plugs, integers and strings. -/
inductive PyObject where
  | plug (id : Nat)
  | int (v : Int)
  | str (s : String)
deriving DecidableEq

/-- The object graph: how many plugs were constructed, the (parent, child)
links in the order they were made, and the displays and parameters added. -/
structure Graph where
  plugs : Nat
  links : List (Nat × Nat)
  displays : List (String × String × String)
  parameters : List (Nat × String × Int)
deriving DecidableEq

/-- Plugs and nodes are identified by numbers, data values are integers and
exceptions are messages. -/
abbrev types : Types :=
  ⟨Graph, Nat, Nat, Nat, Nat, Int, Direction, PyObject, String⟩

/-- The exception raised by a failed conversion. -/
def typeError : String :=
  "TypeError: No registered converter was able to extract a Plug"

/-- The exception raised by an index out of range. -/
def indexError : String :=
  "IndexError: tuple index out of range"

/-- A library in which constructing a plug with an empty name throws, a plug
numbered 100 or more is rejected as a child, and only wrapped plugs convert
to plugs. -/
def native : Native types where
  addDisplay := fun _ name type data w =>
    (.ok w.displays.length, ⟨w.plugs, w.links, w.displays ++ [(name, type, data)], w.parameters⟩)
  newParameterListPlug := fun name _ _ w =>
    if name = "" then (.error "invalid name", w)
    else (.ok w.plugs, ⟨w.plugs + 1, w.links, w.displays, w.parameters⟩)
  addChild := fun parent child w =>
    if 100 ≤ child then (.error "child rejected", w)
    else (.ok (), ⟨w.plugs, w.links ++ [(parent, child)], w.displays, w.parameters⟩)
  addParameter := fun p name value w =>
    (.ok w.parameters.length, ⟨w.plugs, w.links, w.displays, w.parameters ++ [(p, name, value)]⟩)
  extractPlug := fun o =>
    match o with
    | .plug id => .ok id
    | _ => .error typeError
  scenePlugStaticTypeName := "ScenePlug"
  plugIn := .In
  plugDefault := 0
  indexError := indexError

/-- An instance of a subclass of `tuple` that holds the one plug `7` and whose
`__len__` returns 2. -/
def overlong : PyTuple types where
  callLen := fun w => (.ok ⟨fun w2 => (.ok 2, w2)⟩, w)
  getItem := fun i w =>
    match i with
    | 0 => (.ok (.plug 7), w)
    | _ => (.error indexError, w)

/-- The empty graph with an empty log. -/
def start : State types :=
  ⟨⟨0, [], [], []⟩, []⟩

end Demo

/-! ## The loop -/

theorem loop_eq_loopCount {T : Types} (N : Native T) (result : T.ParameterListPlug)
    (children : PyTuple T) (s : Nat) :
    ∀ (n i : Nat) (st : State T), s - i = n →
      parameterListPlugConstructor.loop N result children s i st
        = loopCount N result children n i st := by
  intro n
  induction n with
  | zero =>
    intro i st hn
    have hlt : ¬ i < s := by omega
    rw [parameterListPlugConstructor.loop]
    simp [hlt, loopCount]
  | succ n ih =>
    intro i st hn
    have hlt : i < s := by omega
    have hih := fun st2 => ih (i + 1) st2 (by omega)
    rw [parameterListPlugConstructor.loop]
    simp only [hlt, if_true, loopCount]
    cases hg : children.getItem i st.world with
    | mk res w1 =>
      cases res with
      | error e => simp [invoke, hg]
      | ok o =>
        simp only [invoke, hg]
        cases hx : N.extractPlug o with
        | error e => rfl
        | ok c =>
          cases ha : N.addChild result c w1 with
          | mk res2 w2 =>
            cases res2 with
            | error e => simp [ha]
            | ok u =>
              simp only [ha]
              exact hih _

theorem loopCount_ofList {T : Types} (N : Native T) (result : T.ParameterListPlug)
    (cs : List T.PyObject) :
    ∀ (pre : List T.PyObject) (st : State T),
      loopCount N result (PyTuple.ofList N (pre ++ cs)) cs.length pre.length st
        = loopFrom N result cs pre.length st := by
  induction cs with
  | nil =>
    intro pre st
    rfl
  | cons c cs ih =>
    intro pre st
    have hlt : pre.length < (pre ++ c :: cs).length := by simp
    have hget : (pre ++ c :: cs)[pre.length]? = some c := by
      rw [List.getElem?_eq_getElem hlt, List.getElem_of_append rfl rfl]
    have hitem : ∀ w, (PyTuple.ofList N (pre ++ c :: cs)).getItem pre.length w
        = (.ok c, w) := by
      intro w
      simp [PyTuple.ofList, hget]
    have hih := ih (pre ++ [c])
    simp only [List.append_assoc, List.singleton_append, List.length_append,
      List.length_singleton] at hih
    simp only [List.length_cons, loopCount, loopFrom, invoke, hitem]
    cases hx : N.extractPlug c with
    | error e => rfl
    | ok p =>
      cases ha : N.addChild result p st.world with
      | mk res w1 =>
        cases res with
        | error e => simp [ha]
        | ok u =>
          simp only [ha]
          exact hih _

theorem loop_ofList {T : Types} (N : Native T) (result : T.ParameterListPlug)
    (children : List T.PyObject) (st : State T) :
    parameterListPlugConstructor.loop N result (PyTuple.ofList N children) children.length 0 st
      = loopFrom N result children 0 st := by
  rw [loop_eq_loopCount N result _ children.length children.length 0 st rfl]
  exact loopCount_ofList N result children [] st

theorem loopFrom_step_ok {T : Types} (N : Native T) (r : T.ParameterListPlug)
    (c : T.PyObject) (cs : List T.PyObject) (i : Nat) (st : State T) (p : T.Plug)
    (u : Unit) (w1 : T.World) (hx : N.extractPlug c = .ok p)
    (ha : N.addChild r p st.world = (.ok u, w1)) :
    loopFrom N r (c :: cs) i st
      = loopFrom N r cs (i + 1)
          ⟨w1, st.log ++ [⟨.getItem i, none⟩, ⟨.extract i c, none⟩,
            ⟨.addChild r p, none⟩]⟩ := by
  simp [loopFrom, invoke, hx, ha, thrown]

theorem loopFrom_step_reject {T : Types} (N : Native T) (r : T.ParameterListPlug)
    (c : T.PyObject) (cs : List T.PyObject) (i : Nat) (st : State T) (p : T.Plug)
    (e : T.Exn) (w1 : T.World) (hx : N.extractPlug c = .ok p)
    (ha : N.addChild r p st.world = (.error e, w1)) :
    loopFrom N r (c :: cs) i st
      = (.error e, ⟨w1, st.log ++ [⟨.getItem i, none⟩, ⟨.extract i c, none⟩,
          ⟨.addChild r p, some e⟩]⟩) := by
  simp [loopFrom, invoke, hx, ha, thrown]

theorem loopFrom_step_unconvertible {T : Types} (N : Native T) (r : T.ParameterListPlug)
    (c : T.PyObject) (cs : List T.PyObject) (i : Nat) (st : State T)
    (e : T.Exn) (hx : N.extractPlug c = .error e) :
    loopFrom N r (c :: cs) i st
      = (.error e, ⟨st.world, st.log ++ [⟨.getItem i, none⟩, ⟨.extract i c, some e⟩]⟩) := by
  simp [loopFrom, invoke, hx, thrown]

theorem loopFrom_prefix {T : Types} (N : Native T) (r : T.ParameterListPlug)
    (rest : List T.PyObject) :
    ∀ (pre : List T.PyObject) (ps : List T.Plug) (i : Nat) (st : State T) (w2 : T.World),
      pre.map N.extractPlug = ps.map Except.ok →
      appendChildren N r ps st.world = (.ok (), w2) →
      ∃ new : List (Entry T),
        loopFrom N r (pre ++ rest) i st
          = loopFrom N r rest (i + pre.length) ⟨w2, st.log ++ new⟩ ∧
        nativeCalls new = ps.map (fun p => Event.addChild r p) ∧
        addChildCalls new = ps.map (fun p => (r, p)) ∧
        examined new = List.range' i pre.length ∧
        indexed new = List.range' i pre.length ∧
        ∀ en ∈ new, en.failure = none := by
  intro pre
  induction pre with
  | nil =>
    intro ps i st w2 hconv happ
    cases ps with
    | cons p ps => simp at hconv
    | nil =>
      simp only [appendChildren, Prod.mk.injEq, true_and] at happ
      refine ⟨[], ?_, rfl, rfl, rfl, rfl, by simp⟩
      subst happ
      simp
  | cons c pre ih =>
    intro ps i st w2 hconv happ
    cases ps with
    | nil => simp at hconv
    | cons p ps =>
      simp only [List.map_cons, List.cons.injEq] at hconv
      obtain ⟨hx, hconv⟩ := hconv
      cases ha : N.addChild r p st.world with
      | mk res w1 =>
        cases res with
        | error e => simp [appendChildren, ha] at happ
        | ok u =>
          simp only [appendChildren, ha] at happ
          obtain ⟨new, hrun, hnat, hadd, hex, hidx, hnone⟩ :=
            ih ps (i + 1)
              ⟨w1, st.log ++ [⟨.getItem i, none⟩, ⟨.extract i c, none⟩,
                ⟨.addChild r p, none⟩]⟩ w2 hconv happ
          refine ⟨[⟨.getItem i, none⟩, ⟨.extract i c, none⟩, ⟨.addChild r p, none⟩] ++ new,
            ?_, ?_, ?_, ?_, ?_, ?_⟩
          · rw [List.cons_append, loopFrom_step_ok N r c (pre ++ rest) i st p u w1 hx ha, hrun]
            simp [Nat.add_assoc, Nat.add_comm 1]
          · simp only [nativeCalls] at hnat ⊢
            simp [hnat, Event.isNative]
          · simp only [addChildCalls] at hadd ⊢
            simp [hadd]
          · simp only [examined] at hex ⊢
            simp [hex, List.range'_succ]
          · simp only [indexed] at hidx ⊢
            simp [hidx, List.range'_succ]
          · intro en hen
            simp only [List.cons_append, List.nil_append, List.mem_cons] at hen
            rcases hen with h | h | h | h
            · rw [h]
            · rw [h]
            · rw [h]
            · exact hnone en h

theorem loopFrom_all_plugs {T : Types} (N : Native T) (r : T.ParameterListPlug) :
    ∀ (cs : List T.PyObject) (ps : List T.Plug) (i : Nat) (st : State T),
      cs.map N.extractPlug = ps.map Except.ok →
      (loopFrom N r cs i st).1 = (appendChildren N r ps st.world).1 ∧
      (loopFrom N r cs i st).2.world = (appendChildren N r ps st.world).2 := by
  intro cs
  induction cs with
  | nil =>
    intro ps i st hconv
    cases ps with
    | cons p ps => simp at hconv
    | nil => exact ⟨rfl, rfl⟩
  | cons c cs ih =>
    intro ps i st hconv
    cases ps with
    | nil => simp at hconv
    | cons p ps =>
      simp only [List.map_cons, List.cons.injEq] at hconv
      obtain ⟨hx, hconv⟩ := hconv
      cases ha : N.addChild r p st.world with
      | mk res w1 =>
        cases res with
        | error e =>
          rw [loopFrom_step_reject N r c cs i st p e w1 hx ha]
          simp [appendChildren, ha]
        | ok u =>
          rw [loopFrom_step_ok N r c cs i st p u w1 hx ha]
          simp only [appendChildren, ha]
          exact ih ps (i + 1) _ hconv

theorem loopFrom_unconvertible_bounds {T : Types} (N : Native T)
    (r : T.ParameterListPlug) (c : T.PyObject) (post : List T.PyObject) (e : T.Exn)
    (hbad : N.extractPlug c = .error e) :
    ∀ (pre : List T.PyObject) (ps : List T.Plug) (i : Nat) (st : State T),
      pre.map N.extractPlug = ps.map Except.ok →
      ∃ new : List (Entry T),
        (loopFrom N r (pre ++ c :: post) i st).2.log = st.log ++ new ∧
        (∃ f, (loopFrom N r (pre ++ c :: post) i st).1 = .error f) ∧
        examined new <+: List.range' i (pre.length + 1) ∧
        indexed new <+: List.range' i (pre.length + 1) ∧
        (addChildCalls new).map Prod.snd <+: ps := by
  intro pre
  induction pre with
  | nil =>
    intro ps i st _
    rw [List.nil_append, loopFrom_step_unconvertible N r c post i st e hbad]
    exact ⟨[⟨.getItem i, none⟩, ⟨.extract i c, some e⟩], rfl, ⟨e, rfl⟩, by simp [examined],
      by simp [indexed], by simp [addChildCalls]⟩
  | cons c0 pre ih =>
    intro ps i st hconv
    cases ps with
    | nil => simp at hconv
    | cons p ps =>
      simp only [List.map_cons, List.cons.injEq] at hconv
      obtain ⟨hx, hconv⟩ := hconv
      cases ha : N.addChild r p st.world with
      | mk res w1 =>
        cases res with
        | error e2 =>
          rw [List.cons_append, loopFrom_step_reject N r c0 _ i st p e2 w1 hx ha]
          refine ⟨[⟨.getItem i, none⟩, ⟨.extract i c0, none⟩, ⟨.addChild r p, some e2⟩], rfl,
            ⟨e2, rfl⟩, ?_, ?_, ?_⟩
          · simp [examined, List.range'_succ]
          · simp [indexed, List.range'_succ]
          · simp [addChildCalls]
        | ok u =>
          rw [List.cons_append, loopFrom_step_ok N r c0 _ i st p u w1 hx ha]
          obtain ⟨new, hlog, hfail, hex, hidx, hadd⟩ :=
            ih ps (i + 1)
              ⟨w1, st.log ++ [⟨.getItem i, none⟩, ⟨.extract i c0, none⟩,
                ⟨.addChild r p, none⟩]⟩ hconv
          refine ⟨[⟨.getItem i, none⟩, ⟨.extract i c0, none⟩, ⟨.addChild r p, none⟩] ++ new,
            ?_, hfail, ?_, ?_, ?_⟩
          · rw [hlog]; simp
          · have h : examined ([⟨.getItem i, none⟩, ⟨.extract i c0, none⟩,
                ⟨.addChild r p, none⟩] ++ new) = i :: examined new := by simp [examined]
            rw [h, List.length_cons, List.range'_succ]
            exact (List.prefix_cons_inj i).mpr hex
          · have h : indexed ([⟨.getItem i, none⟩, ⟨.extract i c0, none⟩,
                ⟨.addChild r p, none⟩] ++ new) = i :: indexed new := by simp [indexed]
            rw [h, List.length_cons, List.range'_succ]
            exact (List.prefix_cons_inj i).mpr hidx
          · have h : addChildCalls ([⟨.getItem i, none⟩, ⟨.extract i c0, none⟩,
                ⟨.addChild r p, none⟩] ++ new) = (r, p) :: addChildCalls new := by
              simp [addChildCalls]
            rw [h, List.map_cons]
            exact (List.prefix_cons_inj p).mpr hadd

theorem loopCount_step_unreadable {T : Types} (N : Native T) (r : T.ParameterListPlug)
    (children : PyTuple T) (n i : Nat) (st : State T) (e : T.Exn) (w1 : T.World)
    (hg : children.getItem i st.world = (.error e, w1)) :
    loopCount N r children (n + 1) i st
      = (.error e, ⟨w1, st.log ++ [⟨.getItem i, some e⟩]⟩) := by
  simp [loopCount, invoke, hg, thrown]

theorem loopCount_step_unconvertible {T : Types} (N : Native T) (r : T.ParameterListPlug)
    (children : PyTuple T) (n i : Nat) (st : State T) (o : T.PyObject) (e : T.Exn)
    (w1 : T.World) (hg : children.getItem i st.world = (.ok o, w1))
    (hx : N.extractPlug o = .error e) :
    loopCount N r children (n + 1) i st
      = (.error e, ⟨w1, st.log ++ [⟨.getItem i, none⟩, ⟨.extract i o, some e⟩]⟩) := by
  simp [loopCount, invoke, hg, hx, thrown]

theorem loopCount_step_reject {T : Types} (N : Native T) (r : T.ParameterListPlug)
    (children : PyTuple T) (n i : Nat) (st : State T) (o : T.PyObject) (c : T.Plug)
    (e : T.Exn) (w1 w2 : T.World) (hg : children.getItem i st.world = (.ok o, w1))
    (hx : N.extractPlug o = .ok c) (ha : N.addChild r c w1 = (.error e, w2)) :
    loopCount N r children (n + 1) i st
      = (.error e, ⟨w2, st.log ++ [⟨.getItem i, none⟩, ⟨.extract i o, none⟩,
          ⟨.addChild r c, some e⟩]⟩) := by
  simp [loopCount, invoke, hg, hx, ha, thrown]

theorem loopCount_step_ok {T : Types} (N : Native T) (r : T.ParameterListPlug)
    (children : PyTuple T) (n i : Nat) (st : State T) (o : T.PyObject) (c : T.Plug)
    (u : Unit) (w1 w2 : T.World) (hg : children.getItem i st.world = (.ok o, w1))
    (hx : N.extractPlug o = .ok c) (ha : N.addChild r c w1 = (.ok u, w2)) :
    loopCount N r children (n + 1) i st
      = loopCount N r children n (i + 1)
          ⟨w2, st.log ++ [⟨.getItem i, none⟩, ⟨.extract i o, none⟩,
            ⟨.addChild r c, none⟩]⟩ := by
  simp [loopCount, invoke, hg, hx, ha, thrown]

theorem loopCount_fails_iff {T : Types} (N : Native T) (r : T.ParameterListPlug)
    (children : PyTuple T) :
    ∀ (n i : Nat) (st : State T),
      ∃ new : List (Entry T),
        (loopCount N r children n i st).2.log = st.log ++ new ∧
        (∀ f, (loopCount N r children n i st).1 = .error f
          ↔ ∃ en ∈ new, en.failure = some f) ∧
        ∀ en ∈ new, en.event.kind = .getItem ∨ en.event.kind = .extract ∨
          en.event.kind = .addChild := by
  intro n
  induction n with
  | zero =>
    intro i st
    exact ⟨[], by simp [loopCount], by simp [loopCount], by simp⟩
  | succ n ih =>
    intro i st
    cases hg : children.getItem i st.world with
    | mk res w1 =>
      cases res with
      | error e =>
        rw [loopCount_step_unreadable N r children n i st e w1 hg]
        exact ⟨[⟨.getItem i, some e⟩], rfl, by simp, by simp [Event.kind]⟩
      | ok o =>
        cases hx : N.extractPlug o with
        | error e =>
          rw [loopCount_step_unconvertible N r children n i st o e w1 hg hx]
          exact ⟨[⟨.getItem i, none⟩, ⟨.extract i o, some e⟩], rfl, by simp,
            by simp [Event.kind]⟩
        | ok c =>
          cases ha : N.addChild r c w1 with
          | mk res2 w2 =>
            cases res2 with
            | error e =>
              rw [loopCount_step_reject N r children n i st o c e w1 w2 hg hx ha]
              exact ⟨[⟨.getItem i, none⟩, ⟨.extract i o, none⟩, ⟨.addChild r c, some e⟩],
                rfl, by simp, by simp [Event.kind]⟩
            | ok u =>
              rw [loopCount_step_ok N r children n i st o c u w1 w2 hg hx ha]
              obtain ⟨new, hlog, hiff, hkind⟩ :=
                ih (i + 1)
                  ⟨w2, st.log ++ [⟨.getItem i, none⟩, ⟨.extract i o, none⟩,
                    ⟨.addChild r c, none⟩]⟩
              refine ⟨[⟨.getItem i, none⟩, ⟨.extract i o, none⟩, ⟨.addChild r c, none⟩] ++ new,
                ?_, ?_, ?_⟩
              · rw [hlog]; simp
              · intro f
                rw [hiff f]
                simp
              · intro en hen
                simp only [List.cons_append, List.nil_append, List.mem_cons] at hen
                rcases hen with h | h | h | h
                · left; rw [h]; rfl
                · right; left; rw [h]; rfl
                · right; right; rw [h]; rfl
                · exact hkind en h

/-! ## The constructor adapter in terms of the loop -/

theorem parameterListPlugConstructor_of_new_error {T : Types} (N : Native T)
    (name : String) (direction : T.Direction) (flags : Nat) (children : PyTuple T)
    (st : State T) (e : T.Exn) (w1 : T.World)
    (hnew : N.newParameterListPlug name direction flags st.world = (.error e, w1)) :
    parameterListPlugConstructor N name direction flags children st
      = (.error e, ⟨w1, st.log ++ [⟨.construct name direction flags, some e⟩]⟩) := by
  simp [parameterListPlugConstructor, invoke, hnew, thrown]

theorem parameterListPlugConstructor_of_len_error {T : Types} (N : Native T)
    (name : String) (direction : T.Direction) (flags : Nat) (children : PyTuple T)
    (st : State T) (r : T.ParameterListPlug) (e : T.Exn) (w1 w2 : T.World)
    (hnew : N.newParameterListPlug name direction flags st.world = (.ok r, w1))
    (hlen : children.callLen w1 = (.error e, w2)) :
    parameterListPlugConstructor N name direction flags children st
      = (.error e, ⟨w2, st.log ++ [⟨.construct name direction flags, none⟩,
          ⟨.len, some e⟩]⟩) := by
  simp [parameterListPlugConstructor, invoke, hnew, hlen, thrown]

theorem parameterListPlugConstructor_of_size_error {T : Types} (N : Native T)
    (name : String) (direction : T.Direction) (flags : Nat) (children : PyTuple T)
    (st : State T) (r : T.ParameterListPlug) (o : PyLen T) (e : T.Exn)
    (w1 w2 w3 : T.World)
    (hnew : N.newParameterListPlug name direction flags st.world = (.ok r, w1))
    (hlen : children.callLen w1 = (.ok o, w2))
    (hsize : o.extractSize w2 = (.error e, w3)) :
    parameterListPlugConstructor N name direction flags children st
      = (.error e, ⟨w3, st.log ++ [⟨.construct name direction flags, none⟩,
          ⟨.len, none⟩, ⟨.extractSize, some e⟩]⟩) := by
  simp [parameterListPlugConstructor, invoke, hnew, hlen, hsize, thrown]

theorem parameterListPlugConstructor_of_size {T : Types} (N : Native T)
    (name : String) (direction : T.Direction) (flags : Nat) (children : PyTuple T)
    (st : State T) (r : T.ParameterListPlug) (o : PyLen T) (s : Nat)
    (w1 w2 w3 : T.World)
    (hnew : N.newParameterListPlug name direction flags st.world = (.ok r, w1))
    (hlen : children.callLen w1 = (.ok o, w2))
    (hsize : o.extractSize w2 = (.ok s, w3)) :
    parameterListPlugConstructor N name direction flags children st
      = match loopCount N r children s 0
            ⟨w3, st.log ++ [⟨.construct name direction flags, none⟩,
              ⟨.len, none⟩, ⟨.extractSize, none⟩]⟩ with
        | (.error e, st2) => (.error e, st2)
        | (.ok _, st2) => (.ok r, st2) := by
  simp [parameterListPlugConstructor, invoke, hnew, hlen, hsize, thrown,
    loop_eq_loopCount N r children s s 0 _ rfl]

theorem parameterListPlugConstructor_of_new {T : Types} (N : Native T) (name : String)
    (direction : T.Direction) (flags : Nat) (children : List T.PyObject) (st : State T)
    (r : T.ParameterListPlug) (w1 : T.World)
    (hnew : N.newParameterListPlug name direction flags st.world = (.ok r, w1)) :
    parameterListPlugConstructor N name direction flags (PyTuple.ofList N children) st
      = match loopFrom N r children 0
            ⟨w1, st.log ++ [⟨.construct name direction flags, none⟩,
              ⟨.len, none⟩, ⟨.extractSize, none⟩]⟩ with
        | (.error e, st2) => (.error e, st2)
        | (.ok _, st2) => (.ok r, st2) := by
  rw [parameterListPlugConstructor_of_size N name direction flags (PyTuple.ofList N children)
    st r ⟨fun w2 => (.ok children.length, w2)⟩ children.length w1 w1 w1 hnew rfl rfl]
  have h := loopCount_ofList N r children []
  simp only [List.nil_append, List.length_nil] at h
  rw [h]

theorem nativeCalls_opening {T : Types} (name : String) (direction : T.Direction)
    (flags : Nat) (new : List (Entry T)) :
    nativeCalls (⟨.construct name direction flags, none⟩ :: ⟨.len, none⟩ ::
        ⟨.extractSize, none⟩ :: new)
      = .construct name direction flags :: nativeCalls new := by
  simp [nativeCalls, Event.isNative]

theorem addChildCalls_opening {T : Types} (name : String) (direction : T.Direction)
    (flags : Nat) (new : List (Entry T)) :
    addChildCalls (⟨.construct name direction flags, none⟩ :: ⟨.len, none⟩ ::
        ⟨.extractSize, none⟩ :: new)
      = addChildCalls new := by
  simp [addChildCalls]

theorem examined_opening {T : Types} (name : String) (direction : T.Direction)
    (flags : Nat) (new : List (Entry T)) :
    examined (⟨.construct name direction flags, none⟩ :: ⟨.len, none⟩ ::
        ⟨.extractSize, none⟩ :: new)
      = examined new := by
  simp [examined]

theorem indexed_opening {T : Types} (name : String) (direction : T.Direction)
    (flags : Nat) (new : List (Entry T)) :
    indexed (⟨.construct name direction flags, none⟩ :: ⟨.len, none⟩ ::
        ⟨.extractSize, none⟩ :: new)
      = indexed new := by
  simp [indexed]

theorem nativeCalls_append {T : Types} (a b : List (Entry T)) :
    nativeCalls (a ++ b) = nativeCalls a ++ nativeCalls b := by
  simp [nativeCalls]

theorem invoke_fails_iff {T : Types} {α : Type} (ev : Event T)
    (f : T.World → Except T.Exn α × T.World) (st : State T) (e : T.Exn) :
    (invoke ev f st).1 = .error e ↔ ∃ en ∈ [(⟨ev, thrown (f st.world).1⟩ : Entry T)],
      en.failure = some e := by
  simp only [invoke, List.mem_singleton, exists_eq_left]
  cases (f st.world).1 with
  | error e2 => simp [thrown]
  | ok a => simp [thrown]

theorem parameterListPlugConstructor_fails_iff {T : Types} (N : Native T) (name : String)
    (direction : T.Direction) (flags : Nat) (children : PyTuple T) (st : State T) :
    ∃ new : List (Entry T),
      (parameterListPlugConstructor N name direction flags children st).2.log
        = st.log ++ new ∧
      (∀ f, (parameterListPlugConstructor N name direction flags children st).1 = .error f
        ↔ ∃ en ∈ new, en.failure = some f) ∧
      ∀ en ∈ new, en.event.kind = .construct ∨ en.event.kind = .len ∨
        en.event.kind = .extractSize ∨ en.event.kind = .getItem ∨
        en.event.kind = .extract ∨ en.event.kind = .addChild := by
  cases hnew : N.newParameterListPlug name direction flags st.world with
  | mk res w1 =>
  cases res with
  | error e =>
    rw [parameterListPlugConstructor_of_new_error N name direction flags children st e w1 hnew]
    exact ⟨[⟨.construct name direction flags, some e⟩], rfl, by simp, by simp [Event.kind]⟩
  | ok r =>
  cases hlen : children.callLen w1 with
  | mk res2 w2 =>
  cases res2 with
  | error e =>
    rw [parameterListPlugConstructor_of_len_error N name direction flags children st r e w1 w2
      hnew hlen]
    exact ⟨[⟨.construct name direction flags, none⟩, ⟨.len, some e⟩], rfl, by simp,
      by simp [Event.kind]⟩
  | ok o =>
  cases hsize : o.extractSize w2 with
  | mk res3 w3 =>
  cases res3 with
  | error e =>
    rw [parameterListPlugConstructor_of_size_error N name direction flags children st r o e
      w1 w2 w3 hnew hlen hsize]
    exact ⟨[⟨.construct name direction flags, none⟩, ⟨.len, none⟩, ⟨.extractSize, some e⟩],
      rfl, by simp, by simp [Event.kind]⟩
  | ok s =>
    rw [parameterListPlugConstructor_of_size N name direction flags children st r o s
      w1 w2 w3 hnew hlen hsize]
    obtain ⟨new, hlog, hiff, hkind⟩ :=
      loopCount_fails_iff N r children s 0
        ⟨w3, st.log ++ [⟨.construct name direction flags, none⟩, ⟨.len, none⟩,
          ⟨.extractSize, none⟩]⟩
    refine ⟨⟨.construct name direction flags, none⟩ :: ⟨.len, none⟩ ::
      ⟨.extractSize, none⟩ :: new, ?_, ?_, ?_⟩
    · cases hl : loopCount N r children s 0
          ⟨w3, st.log ++ [⟨.construct name direction flags, none⟩, ⟨.len, none⟩,
            ⟨.extractSize, none⟩]⟩ with
      | mk res4 st4 =>
        rw [hl] at hlog
        cases res4 with
        | error e => simpa using hlog
        | ok u => simpa using hlog
    · intro f
      cases hl : loopCount N r children s 0
          ⟨w3, st.log ++ [⟨.construct name direction flags, none⟩, ⟨.len, none⟩,
            ⟨.extractSize, none⟩]⟩ with
      | mk res4 st4 =>
        have h := hiff f
        rw [hl] at h
        cases res4 with
        | error e => simpa using h
        | ok u =>
          have h2 : ¬ ∃ en ∈ new, en.failure = some f := fun hex => by
            have := h.mpr hex
            simp at this
          simpa using h2
    · intro en hen
      simp only [List.mem_cons] at hen
      rcases hen with h | h | h | h
      · left; rw [h]; rfl
      · right; left; rw [h]; rfl
      · right; right; left; rw [h]; rfl
      · exact Or.inr (Or.inr (Or.inr (hkind en h)))

/-! ## Runs of the constructor adapter on plain tuples -/

theorem parameterListPlugConstructor_run_ok {T : Types} (N : Native T)
    (name : String) (direction : T.Direction) (flags : Nat)
    (children : List T.PyObject) (plugs : List T.Plug) (st : State T)
    (r : T.ParameterListPlug) (w1 w2 : T.World)
    (hplugs : children.map N.extractPlug = plugs.map Except.ok)
    (hnew : N.newParameterListPlug name direction flags st.world = (.ok r, w1))
    (happend : appendChildren N r plugs w1 = (.ok (), w2)) :
    ∃ new : List (Entry T),
      parameterListPlugConstructor N name direction flags (PyTuple.ofList N children) st
        = (.ok r, ⟨w2, st.log ++ new⟩) ∧
      nativeCalls new
        = Event.construct name direction flags :: plugs.map (fun p => Event.addChild r p) ∧
      addChildCalls new = plugs.map (fun p => (r, p)) ∧
      (addChildCalls new).length = children.length ∧
      examined new = List.range children.length ∧
      indexed new = List.range children.length ∧
      ∀ en ∈ new, en.failure = none := by
  obtain ⟨new, hrun, hnat, hadd, hex, hidx, hnone⟩ :=
    loopFrom_prefix N r [] children plugs 0
      ⟨w1, st.log ++ [⟨.construct name direction flags, none⟩, ⟨.len, none⟩,
        ⟨.extractSize, none⟩]⟩ w2 hplugs happend
  have hlen : plugs.length = children.length := by
    have h := congrArg List.length hplugs
    simpa using h.symm
  refine ⟨⟨.construct name direction flags, none⟩ :: ⟨.len, none⟩ ::
    ⟨.extractSize, none⟩ :: new, ?_, ?_, ?_, ?_, ?_, ?_, ?_⟩
  · rw [parameterListPlugConstructor_of_new N name direction flags children st r w1 hnew]
    rw [List.append_nil] at hrun
    rw [hrun]
    simp [loopFrom]
  · rw [nativeCalls_opening, hnat]
  · rw [addChildCalls_opening, hadd]
  · rw [addChildCalls_opening, hadd, List.length_map, hlen]
  · rw [examined_opening, hex, List.range_eq_range']
  · rw [indexed_opening, hidx, List.range_eq_range']
  · intro en hen
    simp only [List.mem_cons] at hen
    rcases hen with h | h | h | h
    · rw [h]
    · rw [h]
    · rw [h]
    · exact hnone en h

theorem parameterListPlugConstructor_refines {T : Types} (N : Native T) (name : String)
    (direction : T.Direction) (flags : Nat) (children : List T.PyObject)
    (plugs : List T.Plug) (st : State T)
    (hplugs : children.map N.extractPlug = plugs.map Except.ok) :
    ((parameterListPlugConstructor N name direction flags (PyTuple.ofList N children) st).1,
      (parameterListPlugConstructor N name direction flags (PyTuple.ofList N children)
        st).2.world)
      = constructThenAppend N name direction flags plugs st.world := by
  cases hnew : N.newParameterListPlug name direction flags st.world with
  | mk res w1 =>
    cases res with
    | error e =>
      rw [parameterListPlugConstructor_of_new_error N name direction flags _ st e w1 hnew]
      simp [constructThenAppend, hnew]
    | ok r =>
      rw [parameterListPlugConstructor_of_new N name direction flags children st r w1 hnew]
      obtain ⟨h1, h2⟩ := loopFrom_all_plugs N r children plugs 0
        ⟨w1, st.log ++ [⟨.construct name direction flags, none⟩, ⟨.len, none⟩,
          ⟨.extractSize, none⟩]⟩ hplugs
      simp only [constructThenAppend, hnew]
      cases hl : loopFrom N r children 0
          ⟨w1, st.log ++ [⟨.construct name direction flags, none⟩, ⟨.len, none⟩,
            ⟨.extractSize, none⟩]⟩ with
      | mk res2 st2 =>
        rw [hl] at h1 h2
        cases ha : appendChildren N r plugs w1 with
        | mk res3 w2 =>
          rw [ha] at h1 h2
          simp only at h1 h2
          subst h1 h2
          cases res2 with
          | error e => rfl
          | ok u => rfl

theorem parameterListPlugConstructor_run_unconvertible {T : Types}
    (N : Native T) (name : String) (direction : T.Direction) (flags : Nat)
    (children : List T.PyObject) (k : Nat) (hk : k < children.length)
    (plugs : List T.Plug) (e : T.Exn) (st : State T)
    (r : T.ParameterListPlug) (w1 w2 : T.World)
    (hpre : (children.take k).map N.extractPlug = plugs.map Except.ok)
    (hbad : N.extractPlug children[k] = .error e)
    (hnew : N.newParameterListPlug name direction flags st.world = (.ok r, w1))
    (happend : appendChildren N r plugs w1 = (.ok (), w2)) :
    ∃ new : List (Entry T),
      parameterListPlugConstructor N name direction flags (PyTuple.ofList N children) st
        = (.error e, ⟨w2, st.log ++ new⟩) ∧
      nativeCalls new
        = Event.construct name direction flags :: plugs.map (fun p => Event.addChild r p) ∧
      addChildCalls new = plugs.map (fun p => (r, p)) ∧
      (addChildCalls new).length = k ∧
      examined new = List.range (k + 1) ∧
      indexed new = List.range (k + 1) ∧
      new.getLast? = some ⟨.extract k children[k], some e⟩ := by
  obtain ⟨new, hrun, hnat, hadd, hex, hidx, -⟩ :=
    loopFrom_prefix N r (children[k] :: children.drop (k + 1)) (children.take k) plugs 0
      ⟨w1, st.log ++ [⟨.construct name direction flags, none⟩, ⟨.len, none⟩,
        ⟨.extractSize, none⟩]⟩ w2 hpre happend
  have hsplit : children.take k ++ children[k] :: children.drop (k + 1) = children := by
    rw [← List.drop_eq_getElem_cons hk, List.take_append_drop]
  have htake : (children.take k).length = k := by
    rw [List.length_take]; omega
  have hlen : plugs.length = k := by
    have h := congrArg List.length hpre
    simp only [List.length_map] at h
    omega
  rw [hsplit, htake, Nat.zero_add,
    loopFrom_step_unconvertible N r _ _ k _ e hbad] at hrun
  refine ⟨⟨.construct name direction flags, none⟩ :: ⟨.len, none⟩ :: ⟨.extractSize, none⟩ ::
    (new ++ [⟨.getItem k, none⟩, ⟨.extract k children[k], some e⟩]),
    ?_, ?_, ?_, ?_, ?_, ?_, ?_⟩
  · rw [parameterListPlugConstructor_of_new N name direction flags children st r w1 hnew, hrun]
    simp
  · rw [nativeCalls_opening, nativeCalls_append, hnat]
    simp [nativeCalls, Event.isNative]
  · have h : addChildCalls (new ++ [⟨.getItem k, none⟩, ⟨.extract k children[k], some e⟩])
        = addChildCalls new := by simp [addChildCalls]
    rw [addChildCalls_opening, h, hadd]
  · have h : addChildCalls (new ++ [⟨.getItem k, none⟩, ⟨.extract k children[k], some e⟩])
        = addChildCalls new := by simp [addChildCalls]
    rw [addChildCalls_opening, h, hadd, List.length_map, hlen]
  · have h : examined (new ++ [⟨.getItem k, none⟩, ⟨.extract k children[k], some e⟩])
        = examined new ++ [k] := by simp [examined]
    rw [examined_opening, h, hex, htake, List.range_succ, List.range_eq_range']
  · have h : indexed (new ++ [⟨.getItem k, none⟩, ⟨.extract k children[k], some e⟩])
        = indexed new ++ [k] := by simp [indexed]
    rw [indexed_opening, h, hidx, htake, List.range_succ, List.range_eq_range']
  · have h : (⟨.construct name direction flags, none⟩ :: ⟨.len, none⟩ ::
          ⟨.extractSize, none⟩ ::
          (new ++ [⟨.getItem k, none⟩, ⟨.extract k children[k], some e⟩]) : List (Entry T))
        = (⟨.construct name direction flags, none⟩ :: ⟨.len, none⟩ ::
          ⟨.extractSize, none⟩ :: (new ++ [⟨.getItem k, none⟩]))
            ++ [⟨.extract k children[k], some e⟩] := by simp
    rw [h, List.getLast?_concat]

theorem parameterListPlugConstructor_unconvertible_bounds {T : Types} (N : Native T)
    (name : String) (direction : T.Direction) (flags : Nat)
    (children : List T.PyObject) (k : Nat) (hk : k < children.length)
    (plugs : List T.Plug) (e : T.Exn) (st : State T)
    (hpre : (children.take k).map N.extractPlug = plugs.map Except.ok)
    (hbad : N.extractPlug children[k] = .error e) :
    ∃ new : List (Entry T),
      (parameterListPlugConstructor N name direction flags (PyTuple.ofList N children)
        st).2.log = st.log ++ new ∧
      (∃ f, (parameterListPlugConstructor N name direction flags (PyTuple.ofList N children)
        st).1 = .error f) ∧
      examined new <+: List.range (k + 1) ∧
      indexed new <+: List.range (k + 1) ∧
      (addChildCalls new).map Prod.snd <+: plugs := by
  have hsplit : children.take k ++ children[k] :: children.drop (k + 1) = children := by
    rw [← List.drop_eq_getElem_cons hk, List.take_append_drop]
  have htake : (children.take k).length = k := by
    rw [List.length_take]; omega
  cases hnew : N.newParameterListPlug name direction flags st.world with
  | mk res w1 =>
    cases res with
    | error e2 =>
      rw [parameterListPlugConstructor_of_new_error N name direction flags _ st e2 w1 hnew]
      exact ⟨[⟨.construct name direction flags, some e2⟩], rfl, ⟨e2, rfl⟩,
        by simp [examined], by simp [indexed], by simp [addChildCalls]⟩
    | ok r =>
      rw [parameterListPlugConstructor_of_new N name direction flags children st r w1 hnew]
      obtain ⟨new, hlog, ⟨f, hf⟩, hex, hidx, hadd⟩ :=
        loopFrom_unconvertible_bounds N r children[k] (children.drop (k + 1)) e hbad
          (children.take k) plugs 0
          ⟨w1, st.log ++ [⟨.construct name direction flags, none⟩, ⟨.len, none⟩,
            ⟨.extractSize, none⟩]⟩ hpre
      rw [hsplit] at hlog hf
      rw [htake, ← List.range_eq_range'] at hex hidx
      cases hl : loopFrom N r children 0
          ⟨w1, st.log ++ [⟨.construct name direction flags, none⟩, ⟨.len, none⟩,
            ⟨.extractSize, none⟩]⟩ with
      | mk res2 st2 =>
        rw [hl] at hlog hf
        simp only at hlog hf
        subst hf
        refine ⟨⟨.construct name direction flags, none⟩ :: ⟨.len, none⟩ ::
          ⟨.extractSize, none⟩ :: new, ?_, ⟨f, rfl⟩, ?_, ?_, ?_⟩
        · simpa using hlog
        · rw [examined_opening]; exact hex
        · rw [indexed_opening]; exact hidx
        · rw [addChildCalls_opening]; exact hadd

theorem parameterListPlugConstructor_nil {T : Types} (N : Native T) (name : String)
    (direction : T.Direction) (flags : Nat) (st : State T) :
    (parameterListPlugConstructor N name direction flags (PyTuple.ofList N []) st).1
        = (N.newParameterListPlug name direction flags st.world).1 ∧
      (parameterListPlugConstructor N name direction flags (PyTuple.ofList N []) st).2.world
        = (N.newParameterListPlug name direction flags st.world).2 ∧
      ∃ new : List (Entry T),
        (parameterListPlugConstructor N name direction flags (PyTuple.ofList N []) st).2.log
          = st.log ++ new ∧
        nativeCalls new = [Event.construct name direction flags] ∧
        addChildCalls new = [] ∧
        indexed new = [] := by
  cases hnew : N.newParameterListPlug name direction flags st.world with
  | mk res w1 =>
    cases res with
    | error e =>
      rw [parameterListPlugConstructor_of_new_error N name direction flags _ st e w1 hnew]
      exact ⟨rfl, rfl, [⟨.construct name direction flags, some e⟩], rfl,
        by simp [nativeCalls, Event.isNative], by simp [addChildCalls], by simp [indexed]⟩
    | ok r =>
      rw [parameterListPlugConstructor_of_new N name direction flags [] st r w1 hnew]
      exact ⟨rfl, rfl, [⟨.construct name direction flags, none⟩, ⟨.len, none⟩,
        ⟨.extractSize, none⟩], rfl, by simp [nativeCalls, Event.isNative],
        by simp [addChildCalls], by simp [indexed]⟩

/-! ## Runs on the sample library -/

theorem Demo.run_unconvertible :
    parameterListPlugConstructor Demo.native "p" Demo.Direction.In 0
        (PyTuple.ofList Demo.native [Demo.PyObject.int 3]) Demo.start
      = (.error Demo.typeError,
          ⟨⟨1, [], [], []⟩,
            [⟨.construct "p" Demo.Direction.In 0, none⟩, ⟨.len, none⟩, ⟨.extractSize, none⟩,
             ⟨.getItem 0, none⟩,
             ⟨.extract 0 (Demo.PyObject.int 3), some Demo.typeError⟩]⟩) := by
  rw [parameterListPlugConstructor_of_new Demo.native "p" Demo.Direction.In 0 _ Demo.start 0
    ⟨1, [], [], []⟩ (by simp [Demo.native, Demo.start])]
  simp [loopFrom, invoke, Demo.native, Demo.start, thrown]

theorem Demo.run_empty :
    parameterListPlugConstructor Demo.native "p" Demo.Direction.In 0
        (PyTuple.ofList Demo.native []) Demo.start
      = (.ok 0, ⟨⟨1, [], [], []⟩,
          [⟨.construct "p" Demo.Direction.In 0, none⟩, ⟨.len, none⟩,
           ⟨.extractSize, none⟩]⟩) := by
  rw [parameterListPlugConstructor_of_new Demo.native "p" Demo.Direction.In 0 _ Demo.start 0
    ⟨1, [], [], []⟩ (by simp [Demo.native, Demo.start])]
  simp [loopFrom, Demo.start]

theorem Demo.run_one :
    parameterListPlugConstructor Demo.native "p" Demo.Direction.In 0
        (PyTuple.ofList Demo.native [Demo.PyObject.plug 7]) Demo.start
      = (.ok 0,
          ⟨⟨1, [(0, 7)], [], []⟩,
            [⟨.construct "p" Demo.Direction.In 0, none⟩, ⟨.len, none⟩, ⟨.extractSize, none⟩,
             ⟨.getItem 0, none⟩,
             ⟨.extract 0 (Demo.PyObject.plug 7), none⟩,
             ⟨.addChild 0 7, none⟩]⟩) := by
  rw [parameterListPlugConstructor_of_new Demo.native "p" Demo.Direction.In 0 _ Demo.start 0
    ⟨1, [], [], []⟩ (by simp [Demo.native, Demo.start])]
  simp [loopFrom, invoke, Demo.native, Demo.start, thrown]

theorem Demo.run_overlong :
    parameterListPlugConstructor Demo.native "p" Demo.Direction.In 0 Demo.overlong Demo.start
      = (.error Demo.indexError,
          ⟨⟨1, [(0, 7)], [], []⟩,
            [⟨.construct "p" Demo.Direction.In 0, none⟩, ⟨.len, none⟩, ⟨.extractSize, none⟩,
             ⟨.getItem 0, none⟩,
             ⟨.extract 0 (Demo.PyObject.plug 7), none⟩,
             ⟨.addChild 0 7, none⟩,
             ⟨.getItem 1, some Demo.indexError⟩]⟩) := by
  rw [parameterListPlugConstructor_of_size Demo.native "p" Demo.Direction.In 0 Demo.overlong
    Demo.start 0 ⟨fun w2 => (.ok 2, w2)⟩ 2 ⟨1, [], [], []⟩ ⟨1, [], [], []⟩ ⟨1, [], [], []⟩
    (by simp [Demo.native, Demo.start]) rfl rfl]
  simp [loopCount, invoke, Demo.native, Demo.overlong, Demo.start, thrown]

/-! ## The enum binding -/

/-- C1: when `children` is the tuple of the given elements and every element
converts to a plug (to `plugs`, in order), what `parameterListPlugConstructor`
returns and the world it leaves are those of building the native plug from
exactly `(name, direction, flags)` and then adding `plugs` to it with
`addChild`, in order.  So when the native constructor returns `r` and the
native `addChild` calls succeed, the adapter returns `r`; the library calls it
made are that one constructor call followed by `addChild( children[0] )`, ...,
`addChild( children[n-1] )` on `r` in that order, so `addChild` was called
exactly `n = children.length` times (not at all for the empty tuple); every
element was read and examined once, in order, and nothing threw. -/
theorem parameterListPlugConstructor_appends_children {T : Types} (N : Native T)
    (name : String) (direction : T.Direction) (flags : Nat)
    (children : List T.PyObject) (plugs : List T.Plug) (st : State T)
    (hplugs : children.map N.extractPlug = plugs.map Except.ok) :
    ((parameterListPlugConstructor N name direction flags (PyTuple.ofList N children) st).1,
        (parameterListPlugConstructor N name direction flags (PyTuple.ofList N children)
          st).2.world)
      = constructThenAppend N name direction flags plugs st.world ∧
    ∀ (r : T.ParameterListPlug) (w1 w2 : T.World),
      N.newParameterListPlug name direction flags st.world = (.ok r, w1) →
      appendChildren N r plugs w1 = (.ok (), w2) →
      ∃ new : List (Entry T),
        parameterListPlugConstructor N name direction flags (PyTuple.ofList N children) st
          = (.ok r, ⟨w2, st.log ++ new⟩) ∧
        nativeCalls new
          = Event.construct name direction flags
              :: plugs.map (fun p => Event.addChild r p) ∧
        addChildCalls new = plugs.map (fun p => (r, p)) ∧
        (addChildCalls new).length = children.length ∧
        examined new = List.range children.length ∧
        indexed new = List.range children.length ∧
        ∀ en ∈ new, en.failure = none :=
  ⟨parameterListPlugConstructor_refines N name direction flags children plugs st hplugs,
    fun r w1 w2 hnew happend =>
      parameterListPlugConstructor_run_ok N name direction flags children plugs st r w1 w2
        hplugs hnew happend⟩

/-- C6: when `children` is the tuple of the given elements and `k` is the
smallest index whose element does not convert to a plug (the elements before
it convert to `plugs`, in order, and the conversion of `children[k]` throws
`e`), `parameterListPlugConstructor` returns no object: it throws, whatever
the library does, the elements it reads and examines are the first ones up to
index `k` at most, none after `k`, and the plugs it passes to `addChild` are
the first ones of `children[0..k-1]`, in order.  When the native constructor
and the native `addChild` calls on those `k` plugs succeed, what it throws is
the conversion error `e`; by then it has made the constructor call and exactly
`k` calls of `addChild`, on the new plug, with `children[0..k-1]` in order,
and nothing else of the library was called; the elements examined are those
of index `0..k`, and the last thing it did is the failed conversion of
`children[k]`. -/
theorem parameterListPlugConstructor_stops_at_first_unconvertible {T : Types}
    (N : Native T) (name : String) (direction : T.Direction) (flags : Nat)
    (children : List T.PyObject) (k : Nat) (hk : k < children.length)
    (plugs : List T.Plug) (e : T.Exn) (st : State T)
    (hpre : (children.take k).map N.extractPlug = plugs.map Except.ok)
    (hbad : N.extractPlug children[k] = .error e) :
    (∃ new : List (Entry T),
      (parameterListPlugConstructor N name direction flags (PyTuple.ofList N children)
        st).2.log = st.log ++ new ∧
      (∃ f, (parameterListPlugConstructor N name direction flags (PyTuple.ofList N children)
        st).1 = .error f) ∧
      examined new <+: List.range (k + 1) ∧
      indexed new <+: List.range (k + 1) ∧
      (addChildCalls new).map Prod.snd <+: plugs) ∧
    ∀ (r : T.ParameterListPlug) (w1 w2 : T.World),
      N.newParameterListPlug name direction flags st.world = (.ok r, w1) →
      appendChildren N r plugs w1 = (.ok (), w2) →
      ∃ new : List (Entry T),
        parameterListPlugConstructor N name direction flags (PyTuple.ofList N children) st
          = (.error e, ⟨w2, st.log ++ new⟩) ∧
        nativeCalls new
          = Event.construct name direction flags
              :: plugs.map (fun p => Event.addChild r p) ∧
        addChildCalls new = plugs.map (fun p => (r, p)) ∧
        (addChildCalls new).length = k ∧
        examined new = List.range (k + 1) ∧
        indexed new = List.range (k + 1) ∧
        new.getLast? = some ⟨.extract k children[k], some e⟩ :=
  ⟨parameterListPlugConstructor_unconvertible_bounds N name direction flags children k hk
      plugs e st hpre hbad,
    fun r w1 w2 hnew happend =>
      parameterListPlugConstructor_run_unconvertible N name direction flags children k hk
        plugs e st r w1 w2 hpre hbad hnew happend⟩

/-- C2: `addDisplayWrapper` makes exactly one library call,
`displays.addDisplay( name, type, data )` with the three strings unchanged and
in that order, and returns exactly what that call returned (or throws what it
threw), leaving the world as that call left it. -/
theorem addDisplayWrapper_forwards {T : Types} (N : Native T) (displays : T.Displays)
    (name type data : String) (st : State T) :
    (addDisplayWrapper N displays name type data st).1
        = (N.addDisplay displays name type data st.world).1 ∧
      (addDisplayWrapper N displays name type data st).2.world
        = (N.addDisplay displays name type data st.world).2 ∧
      (addDisplayWrapper N displays name type data st).2.log
        = st.log ++ [⟨.addDisplay displays name type data,
            thrown (N.addDisplay displays name type data st.world).1⟩] :=
  ⟨rfl, rfl, rfl⟩

/-- C3: `addParameterWrapper` makes exactly one library call,
`p.addParameter( name, value )` with both arguments unchanged and in that
order, and returns exactly what that call returned (or throws what it threw),
leaving the world as that call left it. -/
theorem addParameterWrapper_forwards {T : Types} (N : Native T) (p : T.ParameterListPlug)
    (name : String) (value : T.Data) (st : State T) :
    (addParameterWrapper N p name value st).1 = (N.addParameter p name value st.world).1 ∧
      (addParameterWrapper N p name value st).2.world
        = (N.addParameter p name value st.world).2 ∧
      (addParameterWrapper N p name value st).2.log
        = st.log ++ [⟨.addParameter p name value,
            thrown (N.addParameter p name value st.world).1⟩] :=
  ⟨rfl, rfl, rfl⟩

/-- C4, as stated, fails: with a tuple holding an integer, the constructor
adapter throws although none of the wrapped library calls it made threw, so
"fails if and only if a wrapped native call fails" does not hold. -/
theorem parameterListPlugConstructor_fails_without_native_failure :
    ¬ ∀ (children : PyTuple Demo.types) (f : String),
        (parameterListPlugConstructor Demo.native "p" Demo.Direction.In 0 children
            Demo.start).1 = .error f ↔
          ∃ en ∈ (parameterListPlugConstructor Demo.native "p" Demo.Direction.In 0 children
              Demo.start).2.log,
            en.event.isNative = true ∧ en.failure = some f := by
  intro h
  have h1 := (h (PyTuple.ofList Demo.native [Demo.PyObject.int 3]) Demo.typeError).mp
    (by rw [Demo.run_unconvertible])
  rw [Demo.run_unconvertible] at h1
  obtain ⟨en, hen, hnat, hf⟩ := h1
  simp only [List.mem_cons, List.mem_singleton, List.not_mem_nil, or_false] at hen
  rcases hen with h2 | h2 | h2 | h2 | h2
  · rw [h2] at hf
    exact Option.noConfusion hf
  · rw [h2] at hnat
    exact Bool.noConfusion hnat
  · rw [h2] at hnat
    exact Bool.noConfusion hnat
  · rw [h2] at hnat
    exact Bool.noConfusion hnat
  · rw [h2] at hnat
    exact Bool.noConfusion hnat

/-- C4, amended: each adapter throws if and only if one of the calls it makes
throws, and what it throws is what that call threw.  The calls of
`addDisplayWrapper` are `addDisplay` calls and those of `addParameterWrapper`
are `addParameter` calls; those of `parameterListPlugConstructor` are the
constructor call and `addChild` calls and, into the Python layer, the call of
`__len__` on `children`, the conversion of its result to a `size_t`, the
indexing `children[i]` and the conversion of the element to a plug.  This is
so for every object passed as `children`, instances of subclasses of `tuple`
included. -/
theorem adapter_fails_iff_a_call_fails {T : Types} (N : Native T) (st : State T) :
    (∀ (displays : T.Displays) (name type data : String),
      ∃ new : List (Entry T),
        (addDisplayWrapper N displays name type data st).2.log = st.log ++ new ∧
        (∀ f, (addDisplayWrapper N displays name type data st).1 = .error f
          ↔ ∃ en ∈ new, en.failure = some f) ∧
        ∀ en ∈ new, en.event.kind = .addDisplay) ∧
    (∀ (p : T.ParameterListPlug) (name : String) (value : T.Data),
      ∃ new : List (Entry T),
        (addParameterWrapper N p name value st).2.log = st.log ++ new ∧
        (∀ f, (addParameterWrapper N p name value st).1 = .error f
          ↔ ∃ en ∈ new, en.failure = some f) ∧
        ∀ en ∈ new, en.event.kind = .addParameter) ∧
    (∀ (name : String) (direction : T.Direction) (flags : Nat) (children : PyTuple T),
      ∃ new : List (Entry T),
        (parameterListPlugConstructor N name direction flags children st).2.log
          = st.log ++ new ∧
        (∀ f, (parameterListPlugConstructor N name direction flags children st).1 = .error f
          ↔ ∃ en ∈ new, en.failure = some f) ∧
        ∀ en ∈ new, en.event.kind = .construct ∨ en.event.kind = .len ∨
          en.event.kind = .extractSize ∨ en.event.kind = .getItem ∨
          en.event.kind = .extract ∨ en.event.kind = .addChild) := by
  refine ⟨?_, ?_, ?_⟩
  · intro displays name type data
    exact ⟨_, rfl, fun f => invoke_fails_iff _ _ st f, by simp [Event.kind]⟩
  · intro p name value
    exact ⟨_, rfl, fun f => invoke_fails_iff _ _ st f, by simp [Event.kind]⟩
  · intro name direction flags children
    exact parameterListPlugConstructor_fails_iff N name direction flags children st

/-- C5, as stated, fails: the library calls made by the constructor adapter
are not the same for every input; with an empty tuple it makes one call, with
a tuple of one plug it makes two. -/
theorem parameterListPlugConstructor_calls_depend_on_children :
    ¬ ∀ (children children2 : List Demo.PyObject),
        (nativeCalls (parameterListPlugConstructor Demo.native "p" Demo.Direction.In 0
            (PyTuple.ofList Demo.native children) Demo.start).2.log).map Event.kind
          = (nativeCalls (parameterListPlugConstructor Demo.native "p" Demo.Direction.In 0
            (PyTuple.ofList Demo.native children2) Demo.start).2.log).map Event.kind := by
  intro h
  have h1 := h [] [Demo.PyObject.plug 7]
  rw [Demo.run_empty, Demo.run_one] at h1
  simp [nativeCalls, Event.isNative] at h1

/-- C5, amended: `addDisplayWrapper` and `addParameterWrapper` make the same
single library call whatever their arguments and return its result unchanged;
`parameterListPlugConstructor` makes the constructor call followed by one
`addChild` call for each element of `children` (when every element is a plug
and no library call throws), so the calls it makes depend on the length of
`children` and on nothing else, and it returns the plug that the constructor
call returned. -/
theorem adapters_call_sequences {T : Types} (N : Native T) :
    (∀ (displays : T.Displays) (name type data : String) (st : State T),
      ∃ new : List (Entry T),
        (addDisplayWrapper N displays name type data st).2.log = st.log ++ new ∧
        new.map (fun en => en.event.kind) = [Kind.addDisplay] ∧
        (addDisplayWrapper N displays name type data st).1
          = (N.addDisplay displays name type data st.world).1) ∧
    (∀ (p : T.ParameterListPlug) (name : String) (value : T.Data) (st : State T),
      ∃ new : List (Entry T),
        (addParameterWrapper N p name value st).2.log = st.log ++ new ∧
        new.map (fun en => en.event.kind) = [Kind.addParameter] ∧
        (addParameterWrapper N p name value st).1
          = (N.addParameter p name value st.world).1) ∧
    (∀ (name : String) (direction : T.Direction) (flags : Nat) (children : List T.PyObject)
        (plugs : List T.Plug) (st : State T) (r : T.ParameterListPlug) (w1 w2 : T.World),
      children.map N.extractPlug = plugs.map Except.ok →
      N.newParameterListPlug name direction flags st.world = (.ok r, w1) →
      appendChildren N r plugs w1 = (.ok (), w2) →
      ∃ new : List (Entry T),
        (parameterListPlugConstructor N name direction flags (PyTuple.ofList N children)
          st).2.log = st.log ++ new ∧
        (nativeCalls new).map Event.kind
          = Kind.construct :: List.replicate children.length Kind.addChild ∧
        (parameterListPlugConstructor N name direction flags (PyTuple.ofList N children)
          st).1 = .ok r) := by
  refine ⟨?_, ?_, ?_⟩
  · intro displays name type data st
    exact ⟨_, rfl, rfl, rfl⟩
  · intro p name value st
    exact ⟨_, rfl, rfl, rfl⟩
  · intro name direction flags children plugs st r w1 w2 hplugs hnew happend
    obtain ⟨new, hrun, hnat, -, -, -, -, -⟩ :=
      parameterListPlugConstructor_run_ok N name direction flags children plugs st r w1 w2
        hplugs hnew happend
    have hlen : plugs.length = children.length := by
      have h := congrArg List.length hplugs
      simpa using h.symm
    refine ⟨new, by rw [hrun], ?_, by rw [hrun]⟩
    rw [hnat, List.map_cons, List.map_map, ← hlen]
    simp [Event.kind, List.eq_replicate_iff]

/-- C7: the registered `__init__` runs `parameterListPlugConstructor` with,
for each of `name`, `direction`, `flags` and `children`, the argument when it
is supplied and otherwise its own default, `ScenePlug::staticTypeName()`,
`Plug::In`, `Plug::Default` and the empty tuple; so an argument that is
supplied replaces its own default and no other.  Called with no arguments it
is `parameterListPlugConstructor` on these four defaults: its one library
call is the constructor call with that name, direction and flags, no element
is read and no child is added, and the result is what the constructor call
returned. -/
theorem ParameterListPlug_init_defaults {T : Types} (N : Native T) (st : State T) :
    (∀ (name : Option String) (direction : Option T.Direction) (flags : Option Nat)
        (children : Option (PyTuple T)),
      ParameterListPlug.init N name direction flags children st
        = parameterListPlugConstructor N
            (match name with
              | some n => n
              | none => N.scenePlugStaticTypeName)
            (match direction with
              | some d => d
              | none => N.plugIn)
            (match flags with
              | some f => f
              | none => N.plugDefault)
            (match children with
              | some c => c
              | none => PyTuple.ofList N [])
            st) ∧
      ParameterListPlug.init N none none none none st
        = parameterListPlugConstructor N N.scenePlugStaticTypeName N.plugIn N.plugDefault
            (PyTuple.ofList N []) st ∧
      (ParameterListPlug.init N none none none none st).1
        = (N.newParameterListPlug N.scenePlugStaticTypeName N.plugIn N.plugDefault
            st.world).1 ∧
      (ParameterListPlug.init N none none none none st).2.world
        = (N.newParameterListPlug N.scenePlugStaticTypeName N.plugIn N.plugDefault
            st.world).2 ∧
      ∃ new : List (Entry T),
        (ParameterListPlug.init N none none none none st).2.log = st.log ++ new ∧
        nativeCalls new
          = [Event.construct N.scenePlugStaticTypeName N.plugIn N.plugDefault] ∧
        addChildCalls new = [] ∧
        indexed new = [] := by
  refine ⟨?_, rfl, ?_⟩
  · intro name direction flags children
    cases name <;> cases direction <;> cases flags <;> cases children <;> rfl
  · exact parameterListPlugConstructor_nil N N.scenePlugStaticTypeName N.plugIn
      N.plugDefault st

/-- C1 on a tuple of two plugs: the adapter returns the new plug `0`, having
added plugs `3` and `5` to it in that order. -/
theorem parameterListPlugConstructor_appends_children_witness :
    [Demo.PyObject.plug 3, Demo.PyObject.plug 5].map Demo.native.extractPlug
        = ([3, 5] : List Nat).map Except.ok ∧
      Demo.native.newParameterListPlug "lights" Demo.Direction.In 0 Demo.start.world
        = (.ok 0, ⟨1, [], [], []⟩) ∧
      appendChildren Demo.native 0 [3, 5] ⟨1, [], [], []⟩
        = (.ok (), ⟨1, [(0, 3), (0, 5)], [], []⟩) ∧
      ∃ new : List (Entry Demo.types),
        parameterListPlugConstructor Demo.native "lights" Demo.Direction.In 0
            (PyTuple.ofList Demo.native [Demo.PyObject.plug 3, Demo.PyObject.plug 5])
            Demo.start
          = (.ok 0, ⟨⟨1, [(0, 3), (0, 5)], [], []⟩, Demo.start.log ++ new⟩) ∧
        nativeCalls new
          = Event.construct "lights" Demo.Direction.In 0
              :: ([3, 5] : List Nat).map (fun p => Event.addChild 0 p) ∧
        addChildCalls new = ([3, 5] : List Nat).map (fun p => (0, p)) ∧
        (addChildCalls new).length
          = [Demo.PyObject.plug 3, Demo.PyObject.plug 5].length ∧
        examined new = List.range [Demo.PyObject.plug 3, Demo.PyObject.plug 5].length ∧
        indexed new = List.range [Demo.PyObject.plug 3, Demo.PyObject.plug 5].length ∧
        ∀ en ∈ new, en.failure = none :=
  ⟨rfl, rfl, rfl,
    (parameterListPlugConstructor_appends_children Demo.native "lights" Demo.Direction.In 0
      [Demo.PyObject.plug 3, Demo.PyObject.plug 5] [3, 5] Demo.start rfl).2 0
      ⟨1, [], [], []⟩ ⟨1, [(0, 3), (0, 5)], [], []⟩ rfl rfl⟩

/-- C6 on a tuple whose element of index 1 is a string: the adapter throws the
conversion error after adding plug `3` only; the plug at index 2 is not
reached. -/
theorem parameterListPlugConstructor_stops_at_first_unconvertible_witness :
    1 < [Demo.PyObject.plug 3, Demo.PyObject.str "x", Demo.PyObject.plug 5].length ∧
      ([Demo.PyObject.plug 3, Demo.PyObject.str "x", Demo.PyObject.plug 5].take 1).map
          Demo.native.extractPlug = ([3] : List Nat).map Except.ok ∧
      Demo.native.extractPlug (Demo.PyObject.str "x") = .error Demo.typeError ∧
      Demo.native.newParameterListPlug "lights" Demo.Direction.In 0 Demo.start.world
        = (.ok 0, ⟨1, [], [], []⟩) ∧
      appendChildren Demo.native 0 [3] ⟨1, [], [], []⟩ = (.ok (), ⟨1, [(0, 3)], [], []⟩) ∧
      ∃ new : List (Entry Demo.types),
        parameterListPlugConstructor Demo.native "lights" Demo.Direction.In 0
            (PyTuple.ofList Demo.native
              [Demo.PyObject.plug 3, Demo.PyObject.str "x", Demo.PyObject.plug 5])
            Demo.start
          = (.error Demo.typeError, ⟨⟨1, [(0, 3)], [], []⟩, Demo.start.log ++ new⟩) ∧
        nativeCalls new
          = Event.construct "lights" Demo.Direction.In 0
              :: ([3] : List Nat).map (fun p => Event.addChild 0 p) ∧
        addChildCalls new = ([3] : List Nat).map (fun p => (0, p)) ∧
        (addChildCalls new).length = 1 ∧
        examined new = List.range (1 + 1) ∧
        indexed new = List.range (1 + 1) ∧
        new.getLast? = some ⟨.extract 1 (Demo.PyObject.str "x"), some Demo.typeError⟩ :=
  ⟨by decide, rfl, rfl, rfl, rfl,
    (parameterListPlugConstructor_stops_at_first_unconvertible Demo.native "lights"
      Demo.Direction.In 0 [Demo.PyObject.plug 3, Demo.PyObject.str "x", Demo.PyObject.plug 5]
      1 (by decide) [3] Demo.typeError Demo.start rfl rfl).2 0 ⟨1, [], [], []⟩
      ⟨1, [(0, 3)], [], []⟩ rfl rfl⟩

/-- C4 (amended) on an instance of a subclass of `tuple` whose `__len__`
returns 2 though it holds one plug: the adapter throws the `IndexError` of
`children[1]`, the one call it logged as having thrown, and nothing else. -/
theorem adapter_fails_iff_a_call_fails_witness :
    (parameterListPlugConstructor Demo.native "p" Demo.Direction.In 0 Demo.overlong
        Demo.start).1 = .error Demo.indexError ∧
      ∃ new : List (Entry Demo.types),
        (parameterListPlugConstructor Demo.native "p" Demo.Direction.In 0 Demo.overlong
            Demo.start).2.log = Demo.start.log ++ new ∧
        (∀ f, (parameterListPlugConstructor Demo.native "p" Demo.Direction.In 0 Demo.overlong
            Demo.start).1 = .error f
          ↔ ∃ en ∈ new, en.failure = some f) ∧
        ∀ en ∈ new, en.event.kind = .construct ∨ en.event.kind = .len ∨
          en.event.kind = .extractSize ∨ en.event.kind = .getItem ∨
          en.event.kind = .extract ∨ en.event.kind = .addChild :=
  ⟨by rw [Demo.run_overlong],
    (adapter_fails_iff_a_call_fails Demo.native Demo.start).2.2 "p" Demo.Direction.In 0
      Demo.overlong⟩

/-- C5 (amended) on a tuple of two plugs: the library calls are the
constructor call followed by two `addChild` calls, and the new plug is
returned. -/
theorem adapters_call_sequences_witness :
    [Demo.PyObject.plug 3, Demo.PyObject.plug 5].map Demo.native.extractPlug
        = ([3, 5] : List Nat).map Except.ok ∧
      Demo.native.newParameterListPlug "lights" Demo.Direction.In 0 Demo.start.world
        = (.ok 0, ⟨1, [], [], []⟩) ∧
      appendChildren Demo.native 0 [3, 5] ⟨1, [], [], []⟩
        = (.ok (), ⟨1, [(0, 3), (0, 5)], [], []⟩) ∧
      ∃ new : List (Entry Demo.types),
        (parameterListPlugConstructor Demo.native "lights" Demo.Direction.In 0
            (PyTuple.ofList Demo.native [Demo.PyObject.plug 3, Demo.PyObject.plug 5])
            Demo.start).2.log
          = Demo.start.log ++ new ∧
        (nativeCalls new).map Event.kind
          = Kind.construct :: List.replicate
              [Demo.PyObject.plug 3, Demo.PyObject.plug 5].length Kind.addChild ∧
        (parameterListPlugConstructor Demo.native "lights" Demo.Direction.In 0
            (PyTuple.ofList Demo.native [Demo.PyObject.plug 3, Demo.PyObject.plug 5])
            Demo.start).1 = .ok 0 :=
  ⟨rfl, rfl, rfl,
    (adapters_call_sequences Demo.native).2.2 "lights" Demo.Direction.In 0
      [Demo.PyObject.plug 3, Demo.PyObject.plug 5] [3, 5] Demo.start 0 ⟨1, [], [], []⟩
      ⟨1, [(0, 3), (0, 5)], [], []⟩ rfl rfl rfl⟩

/-- C2 on three different strings: the display is added with name, type and
data in that order, and the plug the library returned is returned. -/
theorem addDisplayWrapper_forwards_witness :
    (addDisplayWrapper Demo.native 4 "beauty" "exr" "rgba" Demo.start).1 = .ok 0 ∧
      (addDisplayWrapper Demo.native 4 "beauty" "exr" "rgba" Demo.start).2.world
        = ⟨0, [], [("beauty", "exr", "rgba")], []⟩ ∧
      (addDisplayWrapper Demo.native 4 "beauty" "exr" "rgba" Demo.start).2.log
        = [⟨.addDisplay 4 "beauty" "exr" "rgba", none⟩] :=
  ⟨(addDisplayWrapper_forwards Demo.native 4 "beauty" "exr" "rgba" Demo.start).1.trans rfl,
    (addDisplayWrapper_forwards Demo.native 4 "beauty" "exr" "rgba" Demo.start).2.1.trans rfl,
    (addDisplayWrapper_forwards Demo.native 4 "beauty" "exr" "rgba" Demo.start).2.2.trans rfl⟩

/-- C3 on a sample parameter: it is added to plug `2` with its name and value,
and the plug the library returned is returned. -/
theorem addParameterWrapper_forwards_witness :
    (addParameterWrapper Demo.native 2 "samples" 16 Demo.start).1 = .ok 0 ∧
      (addParameterWrapper Demo.native 2 "samples" 16 Demo.start).2.world
        = ⟨0, [], [], [(2, "samples", 16)]⟩ ∧
      (addParameterWrapper Demo.native 2 "samples" 16 Demo.start).2.log
        = [⟨.addParameter 2 "samples" 16, none⟩] :=
  ⟨(addParameterWrapper_forwards Demo.native 2 "samples" 16 Demo.start).1.trans rfl,
    (addParameterWrapper_forwards Demo.native 2 "samples" 16 Demo.start).2.1.trans rfl,
    (addParameterWrapper_forwards Demo.native 2 "samples" 16 Demo.start).2.2.trans rfl⟩

/-- C7 on the sample library: with no arguments the constructor is called with
the name `ScenePlug`, the direction `In` and flags `0`, and the new plug is
returned with no child; with `name` and `flags` supplied, the direction and
the children keep their defaults. -/
theorem ParameterListPlug_init_defaults_witness :
    (ParameterListPlug.init Demo.native none none none none Demo.start).1 = .ok 0 ∧
      (ParameterListPlug.init Demo.native none none none none Demo.start).2.world
        = ⟨1, [], [], []⟩ ∧
      ParameterListPlug.init Demo.native (some "lights") none (some 5) none Demo.start
        = parameterListPlugConstructor Demo.native "lights" Demo.Direction.In 5
            (PyTuple.ofList Demo.native []) Demo.start :=
  ⟨(ParameterListPlug_init_defaults Demo.native Demo.start).2.2.1.trans rfl,
    (ParameterListPlug_init_defaults Demo.native Demo.start).2.2.2.1.trans rfl,
    (ParameterListPlug_init_defaults Demo.native Demo.start).1 (some "lights") none (some 5)
      none⟩

end GafferSceneModule
